import Mathlib

/-!
Shallow embedding of the octowire-lib protocol engine (`octowire/octowire.py`)
and its GPIO peripheral driver (`octowire/gpio.py`).

The serial transport (pyserial) is an external collaborator: it is modelled as
a state `Serial` holding the receive buffer, the write trace and the read
timeout, together with a device-reaction function `dev : List Nat → List Nat`
giving the bytes the device makes available in response to each write.
`read n` returns up to `n` buffered bytes (fewer on timeout, as pyserial does);
`in_waiting` is the length of the receive buffer.  Bytes are `Nat` values
below 256.  Python exceptions are modelled with `Except String`; the state is
returned alongside the result in every case, because a Python object keeps the
mutations made before an exception was raised.
-/

/-- Model of a pyserial `Serial` handle.  `valid` models
`isinstance(x, serial.Serial)`, `isOpen` models `is_open`. -/
structure Serial where
  valid : Bool
  isOpen : Bool
  rx : List Nat
  written : List Nat
  timeout : Option Nat
deriving DecidableEq, Repr

/-- `serial.read(n)`: up to `n` bytes from the receive buffer. -/
def Serial.read (s : Serial) (n : Nat) : List Nat × Serial :=
  (s.rx.take n, { s with rx := s.rx.drop n })

/-- `serial.write(bs)`: record the bytes and append the device reaction to
the receive buffer. -/
def Serial.write (dev : List Nat → List Nat) (s : Serial) (bs : List Nat) : Serial :=
  { s with written := s.written ++ bs, rx := s.rx ++ dev bs }

/-- `int.from_bytes(bs, byteorder=little)`. -/
def intFromBytesLE : List Nat → Nat
  | [] => 0
  | b :: t => b + 256 * intFromBytesLE t

/-- Little-endian 4-byte encoding, the inverse of `struct.unpack("<L", _)`
for values below 2^32. -/
def le32 (n : Nat) : List Nat :=
  [n % 256, n / 256 % 256, n / 65536 % 256, n / 16777216 % 256]

/-- `struct.unpack("<L", bs)[0]`: requires exactly 4 bytes, else `struct.error`. -/
def structUnpackL (bs : List Nat) : Option Nat :=
  if bs.length = 4 then some (intFromBytesLE bs) else none

/-- `struct.pack("<H", n)`. -/
def structPackH (n : Nat) : List Nat :=
  [n % 256, n / 256 % 256]

/-- Message of the ValueError raised by `bytes([p])` for an out-of-range byte. -/
def bytesRangeErrMsg : String := "bytes must be in range(0, 256)"

/-- `bytes([p])`: valid only for 0 ≤ p ≤ 255, else a ValueError. -/
def pyBytesSingle (p : Int) : Except String (List Nat) :=
  if 0 ≤ p ∧ p < 256 then .ok [p.toNat]
  else .error bytesRangeErrMsg

/-- Message of the exception raised by `Octowire._read_response_code`
(source: "Operation ... returned an error.", tagged with the operation name). -/
def opErrorMsg (operation_name : String) : String :=
  "Operation " ++ operation_name ++ " returned an error."

/-- Message of the struct.error raised when `struct.unpack` gets a short buffer. -/
def structErrMsg : String :=
  "struct.error: unpack requires a buffer of 4 bytes"

/-- `Octowire._read_response_code`: save the timeout, optionally disable it,
read one status byte, restore the timeout, and raise unless the byte is 0x00. -/
def _read_response_code (operation_name : String) (disable_timeout : Bool)
    (s : Serial) : Except String Unit × Serial :=
  let timeout := s.timeout
  let s1 := if disable_timeout then { s with timeout := none } else s
  let r := s1.read 1
  let s2 := { r.2 with timeout := timeout }
  if r.1 = [0] then (.ok (), s2)
  else (.error (opErrorMsg operation_name), s2)

/-- Message of the exception raised by `Octowire._get_size_read_data`
when the 4-byte size-prefix read returns no data. -/
def sizeErrMsg (operation_name : String) : String :=
  "Unable to get the size of the data to receive from the Octowire (Operation: "
    ++ operation_name ++ ")."

/-- Message of the exception raised by `Octowire._read_chunk`
when the chunk read returns no data. -/
def chunkErrMsg (operation_name : String) : String :=
  "No data received from the Octowire (Operation: " ++ operation_name ++ ")."

/-- `Octowire._get_size_read_data`: read the 4-byte little-endian chunk size;
raise if the read returned no data; `struct.unpack` raises on a short buffer. -/
def _get_size_read_data (operation_name : String) (s : Serial) :
    Except String Nat × Serial :=
  let r := s.read 4
  if r.1 = [] then (.error (sizeErrMsg operation_name), r.2)
  else
    match structUnpackL r.1 with
    | none => (.error structErrMsg, r.2)
    | some n => (.ok n, r.2)

/-- `Octowire._read_chunk`: read `chunk_size` bytes; raise if nothing came back. -/
def _read_chunk (chunk_size : Nat) (operation_name : String) (s : Serial) :
    Except String (List Nat) × Serial :=
  let r := s.read chunk_size
  if r.1 = [] then (.error (chunkErrMsg operation_name), r.2)
  else (.ok r.1, r.2)

/-- The `while expected_size > 0` loop of `Octowire._read_data`:
read a size-prefixed chunk, append its data, subtract the chunk size from the
remaining expected size, and continue while the remainder is positive. -/
def read_data_loop (operation_name : String) (expected_size : Int)
    (data : List Nat) (s : Serial) : Except String (List Nat) × Serial :=
  if hpos : 0 < expected_size then
    match _get_size_read_data operation_name s with
    | (.error e, s1) => (.error e, s1)
    | (.ok chunk_size, s1) =>
      match h2 : _read_chunk chunk_size operation_name s1 with
      | (.error e, s2) => (.error e, s2)
      | (.ok chunk, s2) =>
        read_data_loop operation_name (expected_size - chunk_size) (data ++ chunk) s2
  else (.ok data, s)
termination_by expected_size.toNat
decreasing_by
  simp only [_read_chunk, Serial.read] at h2
  by_cases hc : s1.rx.take chunk_size = []
  · simp [hc] at h2
  · have hcs : chunk_size ≠ 0 := by
      intro h0
      rw [h0] at hc
      simp at hc
    omega

/-- Python truthiness of the `expected_size` parameter (`None` and `0` are falsy). -/
def pyTruthyOptInt : Option Int → Bool
  | none => false
  | some e => e ≠ 0

/-- `Octowire._read_data`: if `expected_size` is truthy, run the chunk loop;
otherwise read a single size-prefixed chunk. -/
def _read_data (expected_size : Option Int) (operation_name : String)
    (s : Serial) : Except String (List Nat) × Serial :=
  if pyTruthyOptInt expected_size then
    read_data_loop operation_name (expected_size.getD 0) [] s
  else
    match _get_size_read_data operation_name s with
    | (.error e, s1) => (.error e, s1)
    | (.ok chunk_size, s1) =>
      match _read_chunk chunk_size operation_name s1 with
      | (.error e, s2) => (.error e, s2)
      | (.ok chunk, s2) => (.ok chunk, s2)

/-- Iteration count of the `while` loop of `Octowire._read_data`; it mirrors
the recursion structure of `read_data_loop` exactly. -/
def read_data_iters (operation_name : String) (expected_size : Int)
    (s : Serial) : Nat :=
  if hpos : 0 < expected_size then
    match _get_size_read_data operation_name s with
    | (.error _, _) => 1
    | (.ok chunk_size, s1) =>
      match h2 : _read_chunk chunk_size operation_name s1 with
      | (.error _, _) => 1
      | (.ok _, s2) =>
        1 + read_data_iters operation_name (expected_size - chunk_size) s2
  else 0
termination_by expected_size.toNat
decreasing_by
  simp only [_read_chunk, Serial.read] at h2
  by_cases hc : s1.rx.take chunk_size = []
  · simp [hc] at h2
  · have hcs : chunk_size ≠ 0 := by
      intro h0
      rw [h0] at hc
      simp at hc
    omega

/-- The string `"t"` returned by `detect_current_mode` in text mode. -/
def modeText : String := "t"

/-- The string `"b"` returned by `detect_current_mode` in binary mode. -/
def modeBinary : String := "b"

/-- Operation-name argument used by `detect_current_mode`. -/
def detectOpName : String := "Detect current mode"

/-- The probe byte `b"\x0a"` written by `detect_current_mode`. -/
def probeBytes : List Nat := [10]

/-- The resynchronisation frame `b"\x00\x02" + 10 * b"\x00"` written by
`detect_current_mode` when no echo came back. -/
def syncBytes : List Nat := [0, 2] ++ List.replicate 10 0

/-- `Octowire.detect_current_mode`: write the probe byte, wait, and decide the
mode from `in_waiting`; in the binary branch, complete the pending frame and
drain one status byte plus one unknown-size chunk. -/
def detect_current_mode (dev : List Nat → List Nat) (s : Serial) :
    Except String String × Serial :=
  let s1 := Serial.write dev s probeBytes
  -- time.sleep(0.1): timing is not modelled; the echo is already buffered.
  if s1.rx.length ≠ 0 then
    let r := s1.read s1.rx.length
    (.ok modeText, r.2)
  else
    let s2 := Serial.write dev s1 syncBytes
    match _read_response_code detectOpName false s2 with
    | (.error e, s3) => (.error e, s3)
    | (.ok _, s3) =>
      match _read_data none detectOpName s3 with
      | (.error e, s4) => (.error e, s4)
      | (.ok _, s4) => (.ok modeBinary, s4)

/-- The `b"binmode\n"` command written by `ensure_binary_mode` in text mode. -/
def binmodeBytes : List Nat := [98, 105, 110, 109, 111, 100, 101, 10]

/-- `Octowire.ensure_binary_mode`.  The guard `if self.is_connected:` in the
source tests the truthiness of the bound method object itself (no call), which
is always true, so the body is entered unconditionally.  Returns
`some true` / `some false` for Python `True` / `False`, and `none` for the
implicit `None` return when the detected mode is neither `"t"` nor `"b"`. -/
def ensure_binary_mode (dev : List Nat → List Nat) (s : Serial) :
    Except String (Option Bool) × Serial :=
  match detect_current_mode dev s with
  | (.error e, s1) => (.error e, s1)
  | (.ok current_mode, s1) =>
    if current_mode = modeText then
      let s2 := Serial.write dev s1 binmodeBytes
      -- time.sleep(1), then read the local echo (`in_waiting` bytes)
      let r := s2.read s2.rx.length
      match detect_current_mode dev r.2 with
      | (.error e, s3) => (.error e, s3)
      | (.ok m2, s3) =>
        if m2 = modeBinary then (.ok (some true), s3)
        else (.ok (some false), s3)
    else if current_mode = modeBinary then (.ok (some true), s1)
    else (.ok none, s1)

/-- Python `x is not None` applied to the string returned by
`detect_current_mode`, which is always a string, never `None`. -/
def pyIsNotNoneStr (_ : String) : Bool := true

/-- `Octowire.octowire_status_is_valid`: the serial instance must be valid and
the detected mode not `None`. -/
def octowire_status_is_valid (dev : List Nat → List Nat) (s : Serial) :
    Except String Bool × Serial :=
  if s.valid then
    match detect_current_mode dev s with
    | (.error e, s1) => (.error e, s1)
    | (.ok octowire_mode, s1) =>
      if pyIsNotNoneStr octowire_mode then (.ok true, s1)
      else (.ok false, s1)
  else (.ok false, s)

/-- The version request frame `b"\x00\x00\x02"`. -/
def versionOpcodeBytes : List Nat := [0, 0, 2]

/-- `Octowire.get_octowire_version`: check the status, re-detect the mode
(entering binary mode from text mode), send the version frame, then read
status byte, 4-byte size and the version string.  Returns `none` for the
Python `None` failure returns; the decoded string is kept as raw bytes. -/
def get_octowire_version (dev : List Nat → List Nat) (s : Serial) :
    Except String (Option (List Nat)) × Serial :=
  match octowire_status_is_valid dev s with
  | (.error e, s1) => (.error e, s1)
  | (.ok ok1, s1) =>
    if ok1 then
      match detect_current_mode dev s1 with
      | (.error e, s2) => (.error e, s2)
      | (.ok mode, s2) =>
        let step : Except String Unit × Serial :=
          if mode = modeText then
            match ensure_binary_mode dev s2 with
            | (.error e, s3) => (.error e, s3)
            | (.ok _, s3) => (.ok (), s3)
          else (.ok (), s2)
        match step with
        | (.error e, s3) => (.error e, s3)
        | (.ok _, s3) =>
          let s4 := Serial.write dev s3 versionOpcodeBytes
          let rStatus := s4.read 1
          if rStatus.1 = [0] then
            let rSize := rStatus.2.read 4
            if 0 < intFromBytesLE rSize.1 then
              match structUnpackL rSize.1 with
              | none => (.error structErrMsg, rSize.2)
              | some n =>
                let rVersion := rSize.2.read n
                (.ok (some rVersion.1), rVersion.2)
            else (.ok none, rSize.2)
          else (.ok none, rStatus.2)
    else (.ok none, s1)

/-- The identifying substring `"Octowire"` as bytes. -/
def octowireName : List Nat := [79, 99, 116, 111, 119, 105, 114, 101]

/-- Contiguous-substring test, Python `sub in s` for byte strings. -/
def bytesContains (sub : List Nat) : List Nat → Bool
  | [] => sub.isEmpty
  | a :: t => (List.isPrefixOf sub (a :: t)) || bytesContains sub t

/-- Message of the TypeError raised by Python when `in` is applied to `None`. -/
def typeErrNoneMsg : String :=
  "TypeError: argument of type NoneType is not iterable"

/-- Python `sub in v` where `v` may be `None`: membership on `None` raises a
TypeError. -/
def pyInOptionBytes (sub : List Nat) : Option (List Nat) → Except String Bool
  | none => .error typeErrNoneMsg
  | some bs => .ok (bytesContains sub bs)

/-- `Octowire.is_connected`: valid instance, open port, and the version string
containing `"Octowire"`. -/
def is_connected (dev : List Nat → List Nat) (s : Serial) :
    Except String Bool × Serial :=
  if s.valid then
    if s.isOpen then
      match get_octowire_version dev s with
      | (.error e, s1) => (.error e, s1)
      | (.ok v, s1) =>
        match pyInOptionBytes octowireName v with
        | .error e => (.error e, s1)
        | .ok b => if b then (.ok true, s1) else (.ok false, s1)
    else (.ok false, s)
  else (.ok false, s)

/-- Driver-local cached attributes of `GPIO` (`gpio.py`). -/
structure GPIOState where
  gpio_pin : Int
  direction_status : Option Int
  pull_status : Option Int
  pin_status : Int
deriving DecidableEq, Repr

/-- `GPIO.OPCODE`. -/
def OPCODE : Nat := 8

/-- `GPIO.OPERATION_OUTPUT`. -/
def OPERATION_OUTPUT : Nat := 1

/-- `GPIO.OPERATION_INPUT`. -/
def OPERATION_INPUT : Nat := 2

/-- `GPIO.OPERATION_PULLUP`. -/
def OPERATION_PULLUP : Nat := 3

/-- `GPIO.OPERATION_PULLDOWN`. -/
def OPERATION_PULLDOWN : Nat := 4

/-- `GPIO.OPERATION_DEACTIVATE_PULL`. -/
def OPERATION_DEACTIVATE_PULL : Nat := 5

/-- `GPIO.OPERATION_SET_PIN_HIGH`. -/
def OPERATION_SET_PIN_HIGH : Nat := 6

/-- `GPIO.OPERATION_SET_PIN_LOW`. -/
def OPERATION_SET_PIN_LOW : Nat := 7

/-- `GPIO.OPERATION_READ_PIN`. -/
def OPERATION_READ_PIN : Nat := 8

/-- `GPIO._send_operation_code`: write
`struct.pack("<H", 2) + OPCODE + bytes([gpio_pin]) + operation_code`
and then read the response code. -/
def _send_operation_code (dev : List Nat → List Nat) (gpio_pin : Int)
    (operation_code : Nat) (operation_name : String) (s : Serial) :
    Except String Unit × Serial :=
  match pyBytesSingle gpio_pin with
  | .error e => (.error e, s)
  | .ok pinBytes =>
    let s1 := Serial.write dev s (structPackH 2 ++ [OPCODE] ++ pinBytes ++ [operation_code])
    _read_response_code operation_name false s1

/-- Operation name passed for `OPERATION_OUTPUT`. -/
def outputOpName : String := "set GPIO pin as output"

/-- Operation name passed for `OPERATION_INPUT`. -/
def inputOpName : String := "set GPIO pin as input"

/-- Operation name passed for `OPERATION_DEACTIVATE_PULL`. -/
def pullDisableOpName : String := "GPIO pull disable"

/-- Operation name passed for `OPERATION_PULLUP`. -/
def pullUpOpName : String := "GPIO set pull-up"

/-- Operation name passed for `OPERATION_PULLDOWN`. -/
def pullDownOpName : String := "GPIO set pull-down"

/-- Operation name passed for `OPERATION_SET_PIN_HIGH`. -/
def pinHighOpName : String := "Set GPIO pin to high"

/-- Operation name passed for `OPERATION_SET_PIN_LOW`. -/
def pinLowOpName : String := "Set GPIO pin to low"

/-- Operation name passed for `OPERATION_READ_PIN`. -/
def readPinOpName : String := "GPIO read input pin"

/-- Message of the ValueError raised by the `direction` setter. -/
def dirValueErrMsg : String :=
  "Invalid pin direction, the value should be 0 for output or 1 for input."

/-- Message of the ValueError raised by the `pull` setter. -/
def pullValueErrMsg : String :=
  "Invalid pull value, the value should be 0 for pull-up, 1 for pull-down or None for pull disabled."

/-- Message of the ValueError raised by the `status` setter. -/
def statusValueErrMsg : String :=
  "Invalid status value, the value should be 0 for low or 1 for high."

/-- The `direction` property setter of `GPIO`: validate the value, send the
output or input operation, then cache the inverted flag. -/
def gpio_direction_set (dev : List Nat → List Nat) (direction : Int)
    (g : GPIOState) (s : Serial) : Except String Unit × GPIOState × Serial :=
  if ¬ (direction = 0 ∨ direction = 1) then (.error dirValueErrMsg, g, s)
  else if direction = 0 then
    match _send_operation_code dev g.gpio_pin OPERATION_OUTPUT outputOpName s with
    | (.error e, s1) => (.error e, g, s1)
    | (.ok _, s1) => (.ok (), { g with direction_status := some 1 }, s1)
  else
    match _send_operation_code dev g.gpio_pin OPERATION_INPUT inputOpName s with
    | (.error e, s1) => (.error e, g, s1)
    | (.ok _, s1) => (.ok (), { g with direction_status := some 0 }, s1)

/-- The `pull` property setter of `GPIO`: validate, then three sequential
(non-exclusive) `if` statements for `None`, `0` and `1`. -/
def gpio_pull_set (dev : List Nat → List Nat) (value : Option Int)
    (g : GPIOState) (s : Serial) : Except String Unit × GPIOState × Serial :=
  if ¬ (value = some 0 ∨ value = some 1 ∨ value = none) then
    (.error pullValueErrMsg, g, s)
  else
    let step1 : Except String Unit × GPIOState × Serial :=
      if value = none then
        match _send_operation_code dev g.gpio_pin OPERATION_DEACTIVATE_PULL pullDisableOpName s with
        | (.error e, s1) => (.error e, g, s1)
        | (.ok _, s1) => (.ok (), { g with pull_status := none }, s1)
      else (.ok (), g, s)
    match step1 with
    | (.error e, g1, s1) => (.error e, g1, s1)
    | (.ok _, g1, s1) =>
      let step2 : Except String Unit × GPIOState × Serial :=
        if value = some 0 then
          match _send_operation_code dev g1.gpio_pin OPERATION_PULLUP pullUpOpName s1 with
          | (.error e, s2) => (.error e, g1, s2)
          | (.ok _, s2) => (.ok (), { g1 with pull_status := some 0 }, s2)
        else (.ok (), g1, s1)
      match step2 with
      | (.error e, g2, s2) => (.error e, g2, s2)
      | (.ok _, g2, s2) =>
        if value = some 1 then
          match _send_operation_code dev g2.gpio_pin OPERATION_PULLDOWN pullDownOpName s2 with
          | (.error e, s3) => (.error e, g2, s3)
          | (.ok _, s3) => (.ok (), { g2 with pull_status := some 1 }, s3)
        else (.ok (), g2, s2)

/-- `GPIO._set_output_pin_high`. -/
def _set_output_pin_high (dev : List Nat → List Nat) (g : GPIOState)
    (s : Serial) : Except String Unit × GPIOState × Serial :=
  match _send_operation_code dev g.gpio_pin OPERATION_SET_PIN_HIGH pinHighOpName s with
  | (.error e, s1) => (.error e, g, s1)
  | (.ok _, s1) => (.ok (), { g with pin_status := 1 }, s1)

/-- `GPIO._set_output_pin_low`. -/
def _set_output_pin_low (dev : List Nat → List Nat) (g : GPIOState)
    (s : Serial) : Except String Unit × GPIOState × Serial :=
  match _send_operation_code dev g.gpio_pin OPERATION_SET_PIN_LOW pinLowOpName s with
  | (.error e, s1) => (.error e, g, s1)
  | (.ok _, s1) => (.ok (), { g with pin_status := 0 }, s1)

/-- The `status` property setter of `GPIO`. -/
def gpio_status_set (dev : List Nat → List Nat) (value : Int)
    (g : GPIOState) (s : Serial) : Except String Unit × GPIOState × Serial :=
  if ¬ (value = 0 ∨ value = 1) then (.error statusValueErrMsg, g, s)
  else if value = 0 then _set_output_pin_low dev g s
  else _set_output_pin_high dev g s

/-- `GPIO.toggle`: set `status` to `1` if the cached `pin_status` is `0`,
else to `0`. -/
def gpio_toggle (dev : List Nat → List Nat) (g : GPIOState) (s : Serial) :
    Except String Unit × GPIOState × Serial :=
  gpio_status_set dev (if g.pin_status = 0 then 1 else 0) g s

/-- `GPIO.read`: send the read-pin operation, then return the raw result of a
direct 1-byte transport read (the source performs no emptiness check here). -/
def gpio_read (dev : List Nat → List Nat) (g : GPIOState) (s : Serial) :
    Except String (List Nat) × Serial :=
  match _send_operation_code dev g.gpio_pin OPERATION_READ_PIN readPinOpName s with
  | (.error e, s1) => (.error e, s1)
  | (.ok _, s1) =>
    let r := s1.read 1
    (.ok r.1, r.2)

/-- Python truthiness of `not gpio_pin` for an integer pin id: only `0` is falsy. -/
def pyFalsyInt (p : Int) : Bool := p = 0

/-- The raise condition `not gpio_pin and gpio_pin not in [0, 15]` of
`GPIO.__init__`, exactly as written in the source: the membership test is
against the two-element list `[0, 15]`, not a range. -/
def gpio_pin_check_fails (gpio_pin : Int) : Bool :=
  pyFalsyInt gpio_pin && ! (gpio_pin = 0 ∨ gpio_pin = 15 : Bool)

/-- Message of the ValueError raised by the pin-id check of `GPIO.__init__`. -/
def pinRangeErrMsg : String :=
  "gpio_pin parameter should be defined between 0 and 15."

/-- Message of the ValueError raised when binary mode cannot be entered. -/
def binModeErrMsg : String := "Unable to enter binary mode."

/-- Python truthiness of the `ensure_binary_mode` result
(`None` and `False` falsy, `True` truthy). -/
def pyTruthyOptBool : Option Bool → Bool
  | none => false
  | some b => b

/-- `GPIO.__init__`: store the pin, run the pin-id check, ensure binary mode,
then initialise the caches. -/
def gpio_init (dev : List Nat → List Nat) (gpio_pin : Int) (s : Serial) :
    Except String GPIOState × Serial :=
  if gpio_pin_check_fails gpio_pin then (.error pinRangeErrMsg, s)
  else
    match ensure_binary_mode dev s with
    | (.error e, s1) => (.error e, s1)
    | (.ok r, s1) =>
      if pyTruthyOptBool r then
        (.ok { gpio_pin := gpio_pin, direction_status := none,
               pull_status := none, pin_status := 0 }, s1)
      else (.error binModeErrMsg, s1)

/-- A device model that behaves as an Octowire already in binary mode: no echo
to the probe byte, a success status plus a one-byte chunk in response to the
resynchronisation frame, and nothing else. -/
def devBinaryOk : List Nat → List Nat := fun w =>
  if w = probeBytes then []
  else if w = syncBytes then 0 :: (le32 1 ++ [42])
  else []

/-- A binary-mode device whose version query answers with status byte 0x01. -/
def devBadVersion : List Nat → List Nat := fun w =>
  if w = probeBytes then []
  else if w = syncBytes then 0 :: (le32 1 ++ [42])
  else if w = versionOpcodeBytes then [1]
  else []

/-- A device model that never makes any bytes available. -/
def devSilent : List Nat → List Nat := fun _ => []

/-- A fresh, valid, open serial handle with an empty receive buffer. -/
def serial0 : Serial :=
  { valid := true, isOpen := true, rx := [], written := [], timeout := some 1 }

/-- Helper: `_read_response_code` only consumes one buffered byte; every other
field of the serial state, the timeout included, is left as it was. -/
theorem read_response_code_state (operation_name : String)
    (disable_timeout : Bool) (s : Serial) :
    (_read_response_code operation_name disable_timeout s).2
      = { s with rx := s.rx.drop 1 } := by
  obtain ⟨v, o, rx, w, t⟩ := s
  by_cases h : List.take 1 rx = [0] <;>
    cases disable_timeout <;>
      simp [_read_response_code, Serial.read, h]

/-- C9: the response-status reader `_read_response_code` always restores the
transport read timeout to its prior value before returning or raising: for
every prior timeout value and every `disable_timeout` flag, the resulting
serial state differs from the entry state only by the one status byte consumed
from the receive buffer — in particular `timeout` equals its entry value and
no other transport configuration changes, whether the status byte was 0x00
(normal return) or not (exception). -/
theorem read_response_code_restores_timeout (operation_name : String)
    (disable_timeout : Bool) (s : Serial) :
    (_read_response_code operation_name disable_timeout s).2.timeout = s.timeout
    ∧ (_read_response_code operation_name disable_timeout s).2
        = { s with rx := s.rx.drop 1 } := by
  refine ⟨?_, read_response_code_state operation_name disable_timeout s⟩
  rw [read_response_code_state operation_name disable_timeout s]

/-- Helper: the exact value of `_send_operation_code` when the first buffered
byte is a non-zero status: the frame is written and the operation error is
raised. -/
theorem send_op_fail (dev : List Nat → List Nat) (pin : Int) (op : Nat)
    (name : String) (s : Serial) (b : Nat) (rest : List Nat)
    (h0 : 0 ≤ pin) (h1 : pin < 256) (hrx : s.rx = b :: rest) (hb : b ≠ 0) :
    _send_operation_code dev pin op name s =
      (.error (opErrorMsg name),
       { s with
         written := s.written ++ (structPackH 2 ++ [OPCODE] ++ [pin.toNat] ++ [op]),
         rx := rest ++ dev (structPackH 2 ++ [OPCODE] ++ [pin.toNat] ++ [op]) }) := by
  obtain ⟨v, o, rx, w, t⟩ := s
  simp only at hrx
  subst hrx
  simp [_send_operation_code, pyBytesSingle, h0, h1, Serial.write,
    _read_response_code, Serial.read, hb]

/-- Helper: the exact value of `_send_operation_code` when the first buffered
byte is the success status 0x00. -/
theorem send_op_ok (dev : List Nat → List Nat) (pin : Int) (op : Nat)
    (name : String) (s : Serial) (rest : List Nat)
    (h0 : 0 ≤ pin) (h1 : pin < 256) (hrx : s.rx = 0 :: rest) :
    _send_operation_code dev pin op name s =
      (.ok (),
       { s with
         written := s.written ++ (structPackH 2 ++ [OPCODE] ++ [pin.toNat] ++ [op]),
         rx := rest ++ dev (structPackH 2 ++ [OPCODE] ++ [pin.toNat] ++ [op]) }) := by
  obtain ⟨v, o, rx, w, t⟩ := s
  simp only at hrx
  subst hrx
  simp [_send_operation_code, pyBytesSingle, h0, h1, Serial.write,
    _read_response_code, Serial.read]

/-- C3 counterexample: at pin id 2 and operation code `OPERATION_OUTPUT`
(0x01), the driver writes `[args_size lo, hi, OPCODE, pin, operation] =
[2, 0, 8, 2, 1]`: the 2-byte argument body is the pin id followed by the
operation code, not — as the claim states — the operation code followed by
the pin id, which would be `[2, 0, 8, 1, 2]`. -/
theorem send_operation_args_order_counterexample :
    (_send_operation_code devSilent 2 OPERATION_OUTPUT outputOpName serial0).2.written
      = [2, 0, 8, 2, 1]
    ∧ (_send_operation_code devSilent 2 OPERATION_OUTPUT outputOpName serial0).2.written
      ≠ [2, 0, 8, 1, 2] := by
  constructor <;> decide

/-- C3 (amended): every GPIO operation writes exactly one command frame:
a 16-bit little-endian `args_size`, the 1-byte protocol opcode 0x08, then
exactly `args_size = 2` argument bytes, where the 2-byte argument body is the
1-byte pin id followed by the GPIO operation code (pin first, operation
second), regardless of which operation is sent. -/
theorem send_operation_frame (dev : List Nat → List Nat) (pin : Int)
    (op : Nat) (name : String) (s : Serial)
    (h0 : 0 ≤ pin) (h1 : pin < 256) :
    (_send_operation_code dev pin op name s).2.written
      = s.written ++ (structPackH 2 ++ [OPCODE] ++ ([pin.toNat] ++ [op]))
    ∧ structPackH 2 = [2, 0]
    ∧ ([pin.toNat] ++ [op]).length = 2 := by
  refine ⟨?_, rfl, rfl⟩
  obtain ⟨v, o, rx, w, t⟩ := s
  simp [_send_operation_code, pyBytesSingle, h0, h1, Serial.write,
    _read_response_code, Serial.read]
  split <;> simp [List.append_assoc]

/-- Witness for C3 (amended) at pin 3, operation `OPERATION_PULLUP`. -/
theorem send_operation_frame_witness :
    (_send_operation_code devSilent 3 OPERATION_PULLUP pullUpOpName serial0).2.written
      = serial0.written ++ (structPackH 2 ++ [OPCODE] ++ ([(3 : Int).toNat] ++ [OPERATION_PULLUP]))
    ∧ structPackH 2 = [2, 0]
    ∧ ([(3 : Int).toNat] ++ [OPERATION_PULLUP]).length = 2 :=
  send_operation_frame devSilent 3 OPERATION_PULLUP pullUpOpName serial0
    (by decide) (by decide)

/-- C4 (code bug): the pin-id validation of `GPIO.__init__` is
`not gpio_pin and gpio_pin not in [0, 15]`, which is false for every integer
pin id (the first conjunct only holds for 0, and 0 is in the list), so no
out-of-range pin id is ever rejected: constructing the driver with pin id 16
performs transport I/O and succeeds when the device negotiates binary mode,
instead of failing with the invalid-argument error. -/
theorem gpio_pin_check_never_fires :
    (∀ p : Int, gpio_pin_check_fails p = false)
    ∧ (gpio_init devBinaryOk 16 serial0).1
        = .ok { gpio_pin := 16, direction_status := none,
                pull_status := none, pin_status := 0 }
    ∧ (gpio_init devBinaryOk 16 serial0).2.written ≠ []
    ∧ (gpio_init devBinaryOk (-1) serial0).1
        ≠ .error pinRangeErrMsg := by
  refine ⟨?_, rfl, by decide, by intro h; exact Except.noConfusion h⟩
  intro p
  by_cases hp : p = 0 <;> simp [gpio_pin_check_fails, pyFalsyInt, hp]

/-- C5 (code bug): with a valid, open serial handle on a binary-mode device
whose version query answers with status 0x01, `get_octowire_version` returns
`None`, and `is_connected` then evaluates `"Octowire" in None`, which raises a
TypeError — it does not return false, contradicting the never-raises claim. -/
theorem is_connected_raises_on_failed_version :
    (get_octowire_version devBadVersion serial0).1 = .ok none
    ∧ (is_connected devBadVersion serial0).1 = .error typeErrNoneMsg :=
  ⟨rfl, rfl⟩

/-- C2: for every GPIO driver command (both direction settings, all three pull
settings, both status settings, and toggle), if the 1-byte response status
read after the command frame is any non-zero value, the call raises the
exception tagged with that operation's name, and none of the driver's cached
attributes (`direction_status`, `pull_status`, `pin_status`) is mutated. -/
theorem gpio_command_error_no_mutation (dev : List Nat → List Nat)
    (g : GPIOState) (s : Serial) (b : Nat) (rest : List Nat)
    (h0 : 0 ≤ g.gpio_pin) (h1 : g.gpio_pin < 256)
    (hrx : s.rx = b :: rest) (hb : b ≠ 0) :
    (gpio_direction_set dev 0 g s).1 = .error (opErrorMsg outputOpName)
    ∧ (gpio_direction_set dev 0 g s).2.1 = g
    ∧ (gpio_direction_set dev 1 g s).1 = .error (opErrorMsg inputOpName)
    ∧ (gpio_direction_set dev 1 g s).2.1 = g
    ∧ (gpio_pull_set dev none g s).1 = .error (opErrorMsg pullDisableOpName)
    ∧ (gpio_pull_set dev none g s).2.1 = g
    ∧ (gpio_pull_set dev (some 0) g s).1 = .error (opErrorMsg pullUpOpName)
    ∧ (gpio_pull_set dev (some 0) g s).2.1 = g
    ∧ (gpio_pull_set dev (some 1) g s).1 = .error (opErrorMsg pullDownOpName)
    ∧ (gpio_pull_set dev (some 1) g s).2.1 = g
    ∧ (gpio_status_set dev 0 g s).1 = .error (opErrorMsg pinLowOpName)
    ∧ (gpio_status_set dev 0 g s).2.1 = g
    ∧ (gpio_status_set dev 1 g s).1 = .error (opErrorMsg pinHighOpName)
    ∧ (gpio_status_set dev 1 g s).2.1 = g
    ∧ (gpio_toggle dev g s).1
        = .error (opErrorMsg (if g.pin_status = 0 then pinHighOpName else pinLowOpName))
    ∧ (gpio_toggle dev g s).2.1 = g := by
  have hf := fun op name =>
    send_op_fail dev g.gpio_pin op name s b rest h0 h1 hrx hb
  refine ⟨?_, ?_, ?_, ?_, ?_, ?_, ?_, ?_, ?_, ?_, ?_, ?_, ?_, ?_, ?_, ?_⟩ <;>
    first
    | simp [gpio_direction_set, hf]
    | simp [gpio_pull_set, hf]
    | simp [gpio_status_set, _set_output_pin_low, _set_output_pin_high, hf]
    | (by_cases hps : g.pin_status = 0 <;>
        simp [gpio_toggle, gpio_status_set, _set_output_pin_low,
          _set_output_pin_high, hf, hps])

/-- Witness for C2 at pin 4, status byte 0x01. -/
theorem gpio_command_error_no_mutation_witness :
    (gpio_direction_set devSilent 0
        { gpio_pin := 4, direction_status := none, pull_status := none, pin_status := 0 }
        { valid := true, isOpen := true, rx := [1], written := [], timeout := some 1 }).1
      = .error (opErrorMsg outputOpName)
    ∧ (gpio_direction_set devSilent 0
        { gpio_pin := 4, direction_status := none, pull_status := none, pin_status := 0 }
        { valid := true, isOpen := true, rx := [1], written := [], timeout := some 1 }).2.1
      = { gpio_pin := 4, direction_status := none, pull_status := none, pin_status := 0 } := by
  have h := gpio_command_error_no_mutation devSilent
    { gpio_pin := 4, direction_status := none, pull_status := none, pin_status := 0 }
    { valid := true, isOpen := true, rx := [1], written := [], timeout := some 1 }
    1 [] (by decide) (by decide) rfl (by decide)
  exact ⟨h.1, h.2.1⟩

/-- C8: with a success response status, setting direction `0` (output) caches
`direction_status = 1` and setting direction `1` (input) caches
`direction_status = 0` — the documented inversion holds literally for both
values — and every value outside {0, 1} is rejected with the invalid-argument
ValueError before any transport write (serial state untouched). -/
theorem gpio_direction_inversion (dev : List Nat → List Nat)
    (g : GPIOState) (s : Serial) (rest : List Nat)
    (h0 : 0 ≤ g.gpio_pin) (h1 : g.gpio_pin < 256) (hrx : s.rx = 0 :: rest) :
    (gpio_direction_set dev 0 g s).1 = .ok ()
    ∧ (gpio_direction_set dev 0 g s).2.1 = { g with direction_status := some 1 }
    ∧ (gpio_direction_set dev 1 g s).1 = .ok ()
    ∧ (gpio_direction_set dev 1 g s).2.1 = { g with direction_status := some 0 }
    ∧ (∀ d : Int, ¬ (d = 0 ∨ d = 1) →
        gpio_direction_set dev d g s = (.error dirValueErrMsg, g, s)) := by
  have hk := fun op name => send_op_ok dev g.gpio_pin op name s rest h0 h1 hrx
  refine ⟨?_, ?_, ?_, ?_, ?_⟩
  · simp [gpio_direction_set, hk]
  · simp [gpio_direction_set, hk]
  · simp [gpio_direction_set, hk]
  · simp [gpio_direction_set, hk]
  · intro d hd
    simp [gpio_direction_set, hd]

/-- Witness for C8 at pin 7. -/
theorem gpio_direction_inversion_witness :
    (gpio_direction_set devSilent 0
        { gpio_pin := 7, direction_status := none, pull_status := none, pin_status := 0 }
        { valid := true, isOpen := true, rx := [0], written := [], timeout := some 1 }).2.1
      = { gpio_pin := 7, direction_status := some 1, pull_status := none, pin_status := 0 }
    ∧ (gpio_direction_set devSilent 1
        { gpio_pin := 7, direction_status := none, pull_status := none, pin_status := 0 }
        { valid := true, isOpen := true, rx := [0], written := [], timeout := some 1 }).2.1
      = { gpio_pin := 7, direction_status := some 0, pull_status := none, pin_status := 0 }
    ∧ gpio_direction_set devSilent 2
        { gpio_pin := 7, direction_status := none, pull_status := none, pin_status := 0 }
        { valid := true, isOpen := true, rx := [0], written := [], timeout := some 1 }
      = (.error dirValueErrMsg,
         { gpio_pin := 7, direction_status := none, pull_status := none, pin_status := 0 },
         { valid := true, isOpen := true, rx := [0], written := [], timeout := some 1 }) := by
  have h := gpio_direction_inversion devSilent
    { gpio_pin := 7, direction_status := none, pull_status := none, pin_status := 0 }
    { valid := true, isOpen := true, rx := [0], written := [], timeout := some 1 }
    [] (by decide) (by decide) rfl
  exact ⟨h.2.1, h.2.2.2.1, h.2.2.2.2 2 (by decide)⟩

/-- C7 counterexample: with a success status byte buffered and nothing after
it, `GPIO.read` returns the empty byte string with `.ok` — it surfaces no
transfer-failure error when its final 1-byte pin-level read returns zero
bytes, contrary to the claim. -/
theorem gpio_read_empty_counterexample :
    (gpio_read devSilent
        { gpio_pin := 5, direction_status := none, pull_status := none, pin_status := 0 }
        { valid := true, isOpen := true, rx := [0], written := [], timeout := some 1 }).1
      = .ok [] :=
  rfl

/-- C7 (amended): `_read_data` raises a transfer-failure error whenever the
4-byte size-prefix read or a chunk read returns zero bytes; `GPIO.read`,
however, does not check its final 1-byte pin-level read — with a success
status it returns the raw (possibly empty) bytes, and a zero-byte read
surfaces an error in `GPIO.read` only through the status byte (an empty
status read is not 0x00 and raises the operation error). -/
theorem read_data_zero_byte_reads (operation_name : String) :
    (∀ (expected : Int) (s : Serial), 0 < expected → s.rx = [] →
      (_read_data (some expected) operation_name s).1
        = .error (sizeErrMsg operation_name))
    ∧ (∀ (expected : Int) (s : Serial) (n : Nat), 0 < expected →
        structUnpackL (s.rx.take 4) = some n → s.rx.drop 4 = [] →
        (_read_data (some expected) operation_name s).1
          = .error (chunkErrMsg operation_name))
    ∧ (∀ (g : GPIOState) (s : Serial), 0 ≤ g.gpio_pin → g.gpio_pin < 256 →
        s.rx = [0] → (gpio_read devSilent g s).1 = .ok [])
    ∧ (∀ (g : GPIOState) (s : Serial), 0 ≤ g.gpio_pin → g.gpio_pin < 256 →
        s.rx = [] →
        (gpio_read devSilent g s).1 = .error (opErrorMsg readPinOpName)) := by
  have htruthy : ∀ expected : Int, 0 < expected →
      pyTruthyOptInt (some expected) = true := by
    intro expected h
    simp [pyTruthyOptInt]
    omega
  refine ⟨?_, ?_, ?_, ?_⟩
  · intro expected s hpos hrx
    rw [_read_data, if_pos (htruthy expected hpos), read_data_loop]
    simp only [Option.getD_some]
    rw [dif_pos hpos]
    simp [_get_size_read_data, Serial.read, hrx]
  · intro expected s n hpos hsz hdrop
    have h4 : (s.rx.take 4).length = 4 := by
      by_contra h
      rw [structUnpackL, if_neg h] at hsz
      exact Option.noConfusion hsz
    have hne : s.rx.take 4 ≠ [] := by
      intro h
      rw [h] at h4
      simp at h4
    rw [_read_data, if_pos (htruthy expected hpos), read_data_loop]
    simp only [Option.getD_some]
    rw [dif_pos hpos]
    simp only [_get_size_read_data, Serial.read, hne, if_neg, hsz]
    simp [hsz, hne, _read_chunk, Serial.read, hdrop]
    cases n <;> simp
  · intro g s hp0 hp1 hrx
    rw [gpio_read, send_op_ok devSilent g.gpio_pin OPERATION_READ_PIN
      readPinOpName s [] hp0 hp1 hrx]
    simp [Serial.read, devSilent]
  · intro g s hp0 hp1 hrx
    rw [gpio_read]
    rw [_send_operation_code]
    have hpb : pyBytesSingle g.gpio_pin = .ok [g.gpio_pin.toNat] := by
      simp [pyBytesSingle, hp0, hp1]
    rw [hpb]
    simp [Serial.write, _read_response_code, Serial.read, hrx, devSilent]

/-- Witness for C7 (amended): the size-prefix case at `expected = 3` on an
empty buffer, and the unchecked `GPIO.read` case at pin 5. -/
theorem read_data_zero_byte_reads_witness :
    (_read_data (some 3) detectOpName
        { valid := true, isOpen := true, rx := [], written := [], timeout := some 1 }).1
      = .error (sizeErrMsg detectOpName)
    ∧ (gpio_read devSilent
        { gpio_pin := 5, direction_status := none, pull_status := none, pin_status := 0 }
        { valid := true, isOpen := true, rx := [0], written := [], timeout := some 1 }).1
      = .ok [] := by
  have h := read_data_zero_byte_reads detectOpName
  exact ⟨h.1 3 _ (by decide) rfl,
         h.2.2.1
           { gpio_pin := 5, direction_status := none, pull_status := none, pin_status := 0 }
           { valid := true, isOpen := true, rx := [0], written := [], timeout := some 1 }
           (by decide) (by decide) rfl⟩

/-- Helper: against a device already in binary mode (no echo to the probe, a
success status followed by one well-formed non-empty chunk in response to the
resynchronisation frame), `detect_current_mode` returns `"b"`, writes exactly
the probe byte and the resynchronisation frame, and drains the whole
response, leaving the receive buffer empty. -/
theorem detect_binary_eq (dev : List Nat → List Nat) (s : Serial)
    (sizeb p : List Nat)
    (hprobe : dev probeBytes = [])
    (hsync : dev syncBytes = 0 :: (sizeb ++ p))
    (hsizeb : structUnpackL sizeb = some p.length)
    (hp : p ≠ []) (hrx : s.rx = []) :
    detect_current_mode dev s =
      (.ok modeBinary,
       { s with written := s.written ++ (probeBytes ++ syncBytes), rx := [] }) := by
  have h4 : sizeb.length = 4 := by
    by_contra h
    rw [structUnpackL, if_neg h] at hsizeb
    exact Option.noConfusion hsizeb
  have hsne : sizeb ≠ [] := by
    intro h
    rw [h] at h4
    simp at h4
  obtain ⟨v, o, rx, w, t⟩ := s
  simp only at hrx
  subst hrx
  simp [detect_current_mode, Serial.write, hprobe, hsync, _read_response_code,
    Serial.read, _read_data, pyTruthyOptInt, _get_size_read_data, _read_chunk,
    List.take_left' h4, List.drop_left' h4, hsne, hp, hsizeb,
    List.append_assoc]

/-- C6: once the device is in binary mode, `ensure_binary_mode` returns true,
and a second consecutive call also returns true while writing only the
mode-detection probe and resynchronisation frame — the outer body of
`ensure_binary_mode` itself performs no transport write (in particular the
`binmode` switch command is never sent), so the call is observably safe to
repeat. -/
theorem ensure_binary_mode_idempotent (dev : List Nat → List Nat) (s : Serial)
    (sizeb p : List Nat)
    (hprobe : dev probeBytes = [])
    (hsync : dev syncBytes = 0 :: (sizeb ++ p))
    (hsizeb : structUnpackL sizeb = some p.length)
    (hp : p ≠ []) (hrx : s.rx = []) :
    (ensure_binary_mode dev s).1 = .ok (some true)
    ∧ (ensure_binary_mode dev (ensure_binary_mode dev s).2).1 = .ok (some true)
    ∧ (ensure_binary_mode dev (ensure_binary_mode dev s).2).2.written
        = (ensure_binary_mode dev s).2.written ++ (probeBytes ++ syncBytes) := by
  have hmode : modeBinary ≠ modeText := by decide
  have e1 : ensure_binary_mode dev s =
      (.ok (some true),
       { s with written := s.written ++ (probeBytes ++ syncBytes), rx := [] }) := by
    rw [ensure_binary_mode, detect_binary_eq dev s sizeb p hprobe hsync hsizeb hp hrx]
    simp [hmode]
  have e2 : ensure_binary_mode dev
      { s with written := s.written ++ (probeBytes ++ syncBytes), rx := [] } =
      (.ok (some true),
       { s with written := (s.written ++ (probeBytes ++ syncBytes)) ++ (probeBytes ++ syncBytes),
                rx := [] }) := by
    rw [ensure_binary_mode,
      detect_binary_eq dev
        { s with written := s.written ++ (probeBytes ++ syncBytes), rx := [] }
        sizeb p hprobe hsync hsizeb hp rfl]
    simp [hmode]
  rw [e1]
  simp [e2]

/-- Witness for C6 against the concrete binary-mode device `devBinaryOk`. -/
theorem ensure_binary_mode_idempotent_witness :
    (ensure_binary_mode devBinaryOk serial0).1 = .ok (some true)
    ∧ (ensure_binary_mode devBinaryOk (ensure_binary_mode devBinaryOk serial0).2).1
        = .ok (some true)
    ∧ (ensure_binary_mode devBinaryOk (ensure_binary_mode devBinaryOk serial0).2).2.written
        = (ensure_binary_mode devBinaryOk serial0).2.written ++ (probeBytes ++ syncBytes) :=
  ensure_binary_mode_idempotent devBinaryOk serial0 (le32 1) [42]
    (by decide) (by decide) (by decide) (by decide) rfl

/-- Helper: `le32` always encodes to exactly 4 bytes. -/
theorem le32_length (n : Nat) : (le32 n).length = 4 := rfl

/-- Helper: `le32` is never the empty byte string. -/
theorem le32_ne_nil (n : Nat) : le32 n ≠ [] := by simp [le32]

/-- Helper: `struct.unpack("<L", _)` inverts the 4-byte little-endian
encoding for values below 2^32. -/
theorem structUnpackL_le32 (n : Nat) (h : n < 4294967296) :
    structUnpackL (le32 n) = some n := by
  simp [structUnpackL, le32, intFromBytesLE]
  omega

/-- The wire encoding of a response payload as a stream of chunks, each a
4-byte little-endian size prefix followed by that many data bytes. -/
def encodeChunks : List (List Nat) → List Nat
  | [] => []
  | c :: t => le32 c.length ++ (c ++ encodeChunks t)

/-- Total data size of a chunk list. -/
def sumLens (chunks : List (List Nat)) : Nat := (chunks.map List.length).sum

/-- Helper: the chunk loop of `_read_data` consumes a well-formed chunk
stream one chunk per iteration and returns the concatenation of all chunk
data, leaving the rest of the buffer untouched.  The bounds state that the
expected size is overshot exactly at the last chunk (the sum of the sizes may
exceed the expected total — no truncation happens). -/
theorem read_data_loop_chunks (operation_name : String) :
    ∀ (chunks : List (List Nat)) (expected : Int) (rest acc : List Nat) (s : Serial),
      (∀ c ∈ chunks, c ≠ []) →
      (∀ c ∈ chunks, c.length < 4294967296) →
      (sumLens chunks.dropLast : Int) < expected →
      expected ≤ (sumLens chunks : Int) →
      s.rx = encodeChunks chunks ++ rest →
      read_data_loop operation_name expected acc s =
        (.ok (acc ++ chunks.flatten), { s with rx := rest }) := by
  intro chunks
  induction chunks with
  | nil =>
    intro expected rest acc s _ _ hlow hhigh _
    exfalso
    simp [sumLens] at hlow hhigh
    omega
  | cons c cs ih =>
    intro expected rest acc s hne hsz hlow hhigh hrx
    obtain ⟨v, o, rx, w, t⟩ := s
    simp only at hrx
    subst hrx
    have hcne : c ≠ [] := hne c (List.mem_cons_self c cs)
    have hcsz : c.length < 4294967296 := hsz c (List.mem_cons_self c cs)
    have hpos : 0 < expected := by
      have h0 : (0:Int) ≤ (sumLens (c :: cs).dropLast : Int) := Int.ofNat_nonneg _
      omega
    rw [read_data_loop, dif_pos hpos]
    have hsize : _get_size_read_data operation_name
        ⟨v, o, encodeChunks (c :: cs) ++ rest, w, t⟩ =
        (.ok c.length, ⟨v, o, c ++ (encodeChunks cs ++ rest), w, t⟩) := by
      rw [_get_size_read_data]
      simp only [Serial.read, encodeChunks, List.append_assoc,
        List.take_left' (le32_length c.length), List.drop_left' (le32_length c.length)]
      rw [if_neg (le32_ne_nil c.length), structUnpackL_le32 c.length hcsz]
    have hchunk : _read_chunk c.length operation_name
        ⟨v, o, c ++ (encodeChunks cs ++ rest), w, t⟩ =
        (.ok c, ⟨v, o, encodeChunks cs ++ rest, w, t⟩) := by
      rw [_read_chunk]
      simp only [Serial.read, List.take_left, List.drop_left]
      rw [if_neg hcne]
    split
    · next e s1 heq =>
      rw [hsize] at heq
      simp at heq
    · next chunk_size s1 heq =>
      rw [hsize] at heq
      simp only [Prod.mk.injEq, Except.ok.injEq] at heq
      obtain ⟨hcs_eq, hs1⟩ := heq
      subst hcs_eq
      subst hs1
      split
      · next e s2 heq2 =>
        rw [hchunk] at heq2
        simp at heq2
      · next chunk s2 heq2 =>
        rw [hchunk] at heq2
        simp only [Prod.mk.injEq, Except.ok.injEq] at heq2
        obtain ⟨hchunk_eq, hs2⟩ := heq2
        subst hchunk_eq
        subst hs2
        cases cs with
        | nil =>
          have hle : expected - (c.length : Int) ≤ 0 := by
            simp [sumLens] at hhigh
            omega
          rw [read_data_loop, dif_neg (by omega)]
          simp [encodeChunks]
        | cons c2 cs2 =>
          have hlow2 : (sumLens (c2 :: cs2).dropLast : Int) < expected - c.length := by
            simp only [List.dropLast_cons₂, sumLens, List.map_cons, List.sum_cons] at hlow ⊢
            push_cast at hlow ⊢
            omega
          have hhigh2 : expected - c.length ≤ (sumLens (c2 :: cs2) : Int) := by
            simp only [sumLens, List.map_cons, List.sum_cons] at hhigh ⊢
            push_cast at hhigh ⊢
            omega
          have hrec := ih (expected - c.length) rest (acc ++ c)
            ⟨v, o, encodeChunks (c2 :: cs2) ++ rest, w, t⟩
            (fun x hx => hne x (List.mem_cons_of_mem c hx))
            (fun x hx => hsz x (List.mem_cons_of_mem c hx))
            hlow2 hhigh2 rfl
          rw [hrec]
          simp [List.append_assoc]

/-- C1: for every positive `expected_size` and every buffered stream of
chunks (each a 4-byte little-endian size prefix followed by that many data
bytes) whose sizes first reach or overshoot `expected_size` at the last
chunk, `_read_data` loops reading a chunk, appending its data and subtracting
the chunk size from the remaining expected size while the remainder is
positive, and returns the concatenation of all chunk data — also when the
sizes sum to more than `expected_size`, in which case the whole oversized
concatenation is returned with no truncation and no error. -/
theorem read_data_chunked_concat (operation_name : String)
    (chunks : List (List Nat)) (expected : Int) (rest : List Nat) (s : Serial)
    (hne : ∀ c ∈ chunks, c ≠ [])
    (hsz : ∀ c ∈ chunks, c.length < 4294967296)
    (hlow : (sumLens chunks.dropLast : Int) < expected)
    (hhigh : expected ≤ (sumLens chunks : Int))
    (hrx : s.rx = encodeChunks chunks ++ rest) :
    _read_data (some expected) operation_name s =
      (.ok chunks.flatten, { s with rx := rest }) := by
  have hpos : 0 < expected := by
    have h0 : (0:Int) ≤ (sumLens chunks.dropLast : Int) := Int.ofNat_nonneg _
    omega
  rw [_read_data]
  rw [if_pos (by simp only [pyTruthyOptInt, decide_eq_true_eq]; omega)]
  simp only [Option.getD_some]
  have h := read_data_loop_chunks operation_name chunks expected rest [] s
    hne hsz hlow hhigh hrx
  simpa using h

/-- A buffered two-chunk stream with sizes [4, 6]. -/
def serialChunks46 : Serial :=
  { valid := true, isOpen := true,
    rx := encodeChunks [[1, 2, 3, 4], [5, 6, 7, 8, 9, 10]],
    written := [], timeout := some 1 }

/-- A buffered two-chunk stream with sizes [4, 7] (sum 11 > 10). -/
def serialChunks47 : Serial :=
  { valid := true, isOpen := true,
    rx := encodeChunks [[1, 2, 3, 4], [5, 6, 7, 8, 9, 10, 11]],
    written := [], timeout := some 1 }

/-- Witness for C1: `expected_size = 10` with chunks sized [4, 6] yields the
10-byte concatenation; with chunks sized [4, 7] the full 11-byte oversized
concatenation is returned with no error. -/
theorem read_data_chunked_concat_witness :
    _read_data (some 10) detectOpName serialChunks46
      = (.ok (List.flatten [[1, 2, 3, 4], [5, 6, 7, 8, 9, 10]]),
         { serialChunks46 with rx := [] })
    ∧ (List.flatten [[1, 2, 3, 4], [5, 6, 7, 8, 9, 10]]).length = 10
    ∧ _read_data (some 10) detectOpName serialChunks47
      = (.ok (List.flatten [[1, 2, 3, 4], [5, 6, 7, 8, 9, 10, 11]]),
         { serialChunks47 with rx := [] })
    ∧ (List.flatten [[1, 2, 3, 4], [5, 6, 7, 8, 9, 10, 11]]).length = 11 :=
  ⟨read_data_chunked_concat detectOpName [[1, 2, 3, 4], [5, 6, 7, 8, 9, 10]] 10 []
      serialChunks46 (by decide) (by decide) (by decide) (by decide)
      (by simp [serialChunks46]),
   by decide,
   read_data_chunked_concat detectOpName [[1, 2, 3, 4], [5, 6, 7, 8, 9, 10, 11]] 10 []
      serialChunks47 (by decide) (by decide) (by decide) (by decide)
      (by simp [serialChunks47]),
   by decide⟩

/-- Helper: the chunk loop of `_read_data` runs at most `expected_size`
iterations, because an iteration either raises (counted once) or consumes a
non-empty chunk whose declared size is at least 1, strictly decreasing the
remaining expected size. -/
theorem read_data_iters_le (operation_name : String) (expected_size : Int)
    (s : Serial) :
    read_data_iters operation_name expected_size s ≤ expected_size.toNat := by
  rw [read_data_iters]
  split
  · next hpos =>
    split
    · omega
    · next chunk_size s1 heq =>
      split
      · omega
      · next chunk s2 h2 =>
        have hcs : chunk_size ≠ 0 := by
          simp only [_read_chunk, Serial.read] at h2
          by_cases hc : s1.rx.take chunk_size = []
          · simp [hc] at h2
          · intro h0
            rw [h0] at hc
            simp at hc
        have hrec := read_data_iters_le operation_name
          (expected_size - chunk_size) s2
        omega
  · next hpos => omega
termination_by expected_size.toNat
decreasing_by omega

/-- C10: the chunked-read loop of `_read_data` terminates for every positive
`expected_size` and every buffered stream: it runs at most `expected_size`
iterations (each error-free iteration consumes a non-empty chunk, whose
declared size is therefore at least 1, so the remainder strictly decreases),
and a chunk whose declared size is 0 always raises, because reading zero
bytes yields empty data. -/
theorem read_data_loop_iteration_bound (operation_name : String) :
    (∀ (expected_size : Int) (s : Serial),
      read_data_iters operation_name expected_size s ≤ expected_size.toNat)
    ∧ (∀ (expected_size : Int) (s : Serial), 0 < expected_size →
        structUnpackL (s.rx.take 4) = some 0 →
        (read_data_loop operation_name expected_size [] s).1
          = .error (chunkErrMsg operation_name)) := by
  refine ⟨fun e s => read_data_iters_le operation_name e s, ?_⟩
  intro expected s hpos hsz
  have h4 : (s.rx.take 4).length = 4 := by
    by_contra h
    rw [structUnpackL, if_neg h] at hsz
    exact Option.noConfusion hsz
  have hne : s.rx.take 4 ≠ [] := by
    intro h
    rw [h] at h4
    simp at h4
  rw [read_data_loop, dif_pos hpos]
  simp only [_get_size_read_data, Serial.read, hne, if_neg, hsz]
  simp [hsz, hne, _read_chunk, Serial.read]

/-- Witness for C10 at `expected_size = 3` on a stream whose first chunk
declares size 0. -/
theorem read_data_loop_iteration_bound_witness :
    read_data_iters detectOpName 3
      { valid := true, isOpen := true, rx := le32 0 ++ [9], written := [],
        timeout := some 1 } ≤ 3
    ∧ (read_data_loop detectOpName 3 []
        { valid := true, isOpen := true, rx := le32 0 ++ [9], written := [],
          timeout := some 1 }).1
      = .error (chunkErrMsg detectOpName) := by
  have h := read_data_loop_iteration_bound detectOpName
  exact ⟨h.1 3 _, h.2 3 _ (by decide) (by decide)⟩
